import Mathlib

set_option maxHeartbeats 1000000

/- Shallow embedding of src/api/controllers/orderControllers.js.

   JavaScript optional values are modelled as Option; JS truthiness of a
   string is (present and nonempty), of a number (present and nonzero).
   Numbers are modelled as rationals. The MySQL orders table is a list of
   records plus an auto-increment counter; db.query outcomes and the mailer
   outcome are passed in explicitly. Gateway (PayPal) calls are modelled by
   an outcome parameter, and every handler additionally returns the number
   of gateway (resp. notification) calls it performed. -/

/-- Truthiness of an optional string: absent and the empty string are falsy. -/
def truthyStr : Option String → Bool
  | none => false
  | some s => s ≠ ""

/-- Truthiness of an optional number: absent and zero are falsy. -/
def truthyNum : Option Rat → Bool
  | none => false
  | some q => q ≠ 0

/-- An element of the cart item array, with every field possibly absent:
validateCartData never looks inside items, so malformed items must be representable. -/
structure JsItem where
  productName : Option String
  quantity : Option Int
  price : Option Rat
deriving DecidableEq

/-- The cart object of the gateway flow: total, and items (none when absent or not an array). -/
structure Cart where
  total : Option Rat
  items : Option (List JsItem)
deriving DecidableEq

/-- The first guard of validateCartData: cart absent, or cart.total falsy, or cart.total <= 0
(a falsy total is either absent or zero, and zero already satisfies <= 0). -/
def cartTotalInvalid (cart : Option Cart) : Bool :=
  match cart with
  | none => true
  | some c =>
    match c.total with
    | none => true
    | some t => decide (t ≤ 0)

/-- The second guard of validateCartData: items is not an array, or it is empty. -/
def cartItemsInvalid (cart : Option Cart) : Bool :=
  match cart with
  | none => true
  | some c =>
    match c.items with
    | none => true
    | some l => decide (l.length = 0)

/-- validateCartData from orderControllers.js: throws on a bad total, then on bad items. -/
def validateCartData (cart : Option Cart) : Except String Unit :=
  if cartTotalInvalid cart then
    .error "Invalid cart: Total amount must be greater than zero"
  else if cartItemsInvalid cart then
    .error "Invalid cart: No items found"
  else .ok ()

/-- The character for one decimal digit. -/
def digitChar (n : Nat) : Char := Char.ofNat (48 + n % 10)

/-- Decimal digits of a natural number, most significant first. -/
def natDigits (n : Nat) : List Char :=
  if _h : n < 10 then [digitChar n]
  else natDigits (n / 10) ++ [digitChar n]
termination_by n
decreasing_by exact Nat.div_lt_self (by omega) (by omega)

/-- Number.prototype.toFixed(2): round to two decimal places (ties modelled as
round half up) and render with exactly two digits after the decimal point. -/
def toFixed2 (q : Rat) : String :=
  let scaled : Int := round (q * 100)
  let sign : List Char := if scaled < 0 then ['-'] else []
  let n : Nat := scaled.natAbs
  String.mk (sign ++ natDigits (n / 100) ++ ['.', digitChar (n / 10), digitChar n])

/-- A string with exactly two decimal places: everything after the unique final dot
is exactly two characters, neither of them a dot. -/
def hasTwoDecimals (s : String) : Prop :=
  ∃ pre d1 d2, s.data = pre ++ ['.', d1, d2] ∧ '.' ∉ pre ∧ d1 ≠ '.' ∧ d2 ≠ '.'

/-- The unit_amount object of a purchase-unit item. -/
structure UnitAmount where
  currency_code : String
  value : String
deriving DecidableEq

/-- One entry of the purchase-unit item list sent to the gateway. -/
structure ReqItem where
  name : Option String
  quantity : Option Int
  unit_amount : UnitAmount
deriving DecidableEq

/-- The single purchase unit of the ordersCreate request body. -/
structure PurchaseUnit where
  currencyCode : String
  value : String
  items : List ReqItem
deriving DecidableEq

/-- Builds one request item from a cart item; reading price.toFixed on an absent
price raises a TypeError before any gateway call. -/
def buildItem (it : JsItem) : Except String ReqItem :=
  match it.price with
  | none => .error "TypeError: cannot read toFixed of undefined"
  | some p =>
    .ok { name := it.productName, quantity := it.quantity,
          unit_amount := { currency_code := "USD", value := toFixed2 p } }

/-- cart.items.map over buildItem, stopping at the first TypeError as evaluation would. -/
def buildItems : List JsItem → Except String (List ReqItem)
  | [] => .ok []
  | it :: rest =>
    match buildItem it with
    | .error m => .error m
    | .ok ri =>
      match buildItems rest with
      | .error m => .error m
      | .ok ris => .ok (ri :: ris)

/-- The collect object built by createOrder: USD currency, two-decimal total,
and the mapped item list. -/
def buildCollect (total : Rat) (items : List JsItem) : Except String PurchaseUnit :=
  match buildItems items with
  | .error m => .error m
  | .ok ris => .ok { currencyCode := "USD", value := toFixed2 total, items := ris }

/-- Outcome of one external gateway call: success envelope, ApiError, or transport error. -/
inductive GwOutcome where
  | ok (body : String) (statusCode : Nat)
  | apiErr (msg : String)
  | transpErr (msg : String)
deriving DecidableEq

/-- The value createOrder and captureOrder resolve with. -/
structure PayResult where
  jsonResponse : String
  httpStatusCode : Nat
deriving DecidableEq

/-- createOrder from orderControllers.js: validate, build the request, then one
ordersCreate call; ApiError is rewrapped, other errors rethrown. The second
component counts gateway calls. -/
def createOrder (cart : Option Cart) (gw : GwOutcome) : Except String PayResult × Nat :=
  match validateCartData cart with
  | .error m => (.error m, 0)
  | .ok _ =>
    match cart with
    | none => (.error "", 0)
    | some c =>
      match c.total with
      | none => (.error "", 0)
      | some t =>
        match c.items with
        | none => (.error "", 0)
        | some its =>
          match buildCollect t its with
          | .error m => (.error m, 0)
          | .ok _ =>
            match gw with
            | .ok b sc => (.ok ⟨b, sc⟩, 1)
            | .apiErr m => (.error ("PayPal API Error: " ++ m), 1)
            | .transpErr m => (.error m, 1)

/-- captureOrder from orderControllers.js: guard on a falsy id, then one
ordersCapture call; ApiError is rewrapped, other errors rethrown. -/
def captureOrder (orderID : Option String) (gw : GwOutcome) : Except String PayResult × Nat :=
  if truthyStr orderID = false then
    (.error "Order ID is required", 0)
  else
    match gw with
    | .ok b sc => (.ok ⟨b, sc⟩, 1)
    | .apiErr m => (.error ("PayPal API Capture Error: " ++ m), 1)
    | .transpErr m => (.error m, 1)

/-- The user object of the store-first placeOrder request body. -/
structure JsUser where
  email_customer : Option String
  user_Name : Option String
  ville : Option String
  quartier : Option String
  phoneNumber : Option String
deriving DecidableEq

/-- The placeOrder request body. cartItems is none when absent or not an array. -/
structure PlaceOrderReq where
  user : Option JsUser
  cartItems : Option (List JsItem)
  totalAmount : Option Rat
  paymentMethod : Option String
  order_status : Option String
deriving DecidableEq

/-- One row of the orders table. -/
structure OrderRecord where
  id : Nat
  email : Option String
  username : Option String
  ville : Option String
  quartier : Option String
  phoneNumber : Option String
  paymentMethod : Option String
  totalAmount : Rat
  order_status : String
  cartItems : List JsItem
deriving DecidableEq

/-- The orders table: its rows and the auto-increment counter for the next insert id. -/
structure OrderStore where
  rows : List OrderRecord
  nextId : Nat
deriving DecidableEq

/-- Outcome of a db.query call. -/
inductive DbOutcome where
  | ok
  | failure (msg : String)
deriving DecidableEq

/-- Outcome of SendOrderNotification. -/
inductive NotifyOutcome where
  | ok
  | failure (msg : String)
deriving DecidableEq

/-- The JSON response a handler sends, with the HTTP status and the fields used here. -/
structure HttpResponse where
  status : Nat
  body : Option PayResult := none
  message : Option String := none
  orderId : Option Nat := none
  error : Option String := none
  details : Option String := none
  updatedStatus : Option String := none
deriving DecidableEq

/-- The POST /api/orders route handler; the store is threaded through to show
this flow never touches it. Third component counts gateway calls. -/
def postApiOrders (cart : Option Cart) (gw : GwOutcome) (st : OrderStore) :
    HttpResponse × OrderStore × Nat :=
  match cart with
  | none => ({ status := 400, error := some "Cart data is required" }, st, 0)
  | some c =>
    match createOrder (some c) gw with
    | (.ok r, n) => ({ status := r.httpStatusCode, body := some r }, st, n)
    | (.error m, n) =>
      ({ status := 500, error := some "Failed to create order", details := some m }, st, n)

/-- The apostrophe character, for the French response messages. -/
def apos : String := String.mk [Char.ofNat 39]

def msgIncomplete : String := "Données de commande incomplètes."
def msgDbError : String := "Erreur lors de la création de la commande."
def msgSuccess : String := "Commande créée avec succès."
def msgNotifFail : String :=
  "Commande créée, mais échec de l" ++ apos ++ "envoi de la notification."

/-- The guard of placeOrder: user, cartItems (as an array), totalAmount and
paymentMethod must all be truthy; note that an empty cartItems array and a
negative totalAmount are both truthy and pass. -/
def placeOrderInvalid (req : PlaceOrderReq) : Bool :=
  req.user.isNone || req.cartItems.isNone ||
    !(truthyNum req.totalAmount) || !(truthyStr req.paymentMethod)

/-- placeOrder from orderControllers.js (store-first flow): guard, INSERT with
order_status defaulted to pending, then the e-mail notification; a notification
failure answers 500 without the order id. Returns the response, the updated
store, and the number of notification attempts. -/
def placeOrder (req : PlaceOrderReq) (dbo : DbOutcome) (no : NotifyOutcome)
    (st : OrderStore) : HttpResponse × OrderStore × Nat :=
  if placeOrderInvalid req then
    ({ status := 400, error := some msgIncomplete }, st, 0)
  else
    match req.user, req.cartItems with
    | some u, some items =>
      match dbo with
      | .failure m =>
        ({ status := 500, error := some msgDbError, details := some m }, st, 0)
      | .ok =>
        let rec0 : OrderRecord :=
          { id := st.nextId,
            email := u.email_customer,
            username := u.user_Name,
            ville := u.ville,
            quartier := u.quartier,
            phoneNumber := u.phoneNumber,
            paymentMethod := req.paymentMethod,
            totalAmount := req.totalAmount.getD 0,
            order_status :=
              if truthyStr req.order_status then req.order_status.getD "pending"
              else "pending",
            cartItems := items }
        let st1 : OrderStore := { rows := st.rows ++ [rec0], nextId := st.nextId + 1 }
        match no with
        | .ok =>
          ({ status := 201, message := some msgSuccess, orderId := some st.nextId }, st1, 1)
        | .failure m =>
          ({ status := 500, error := some msgNotifFail, details := some m }, st1, 1)
    | _, _ => ({ status := 400, error := some msgIncomplete }, st, 0)

def msgOrderIdRequired : String := "Order ID is required"
def msgStatusRequired : String := "Order status is required"
def msgOrderNotFound : String := "Order not found"
def msgUpdateOk : String := "Order updated successfully"

/-- UPDATE orders SET order_status = s WHERE id = i: the rewritten rows and the
affected-row count. The route id is a string matched against the numeric key. -/
def sqlUpdateStatus (rows : List OrderRecord) (idStr : String) (s : String) :
    List OrderRecord × Nat :=
  (rows.map (fun r => if toString r.id == idStr then { r with order_status := s } else r),
   rows.countP (fun r => toString r.id == idStr))

/-- updateOrder from orderControllers.js: guards on id and orderStatus, the
UPDATE, then 404 on zero affected rows. -/
def updateOrder (id : Option String) (orderStatus : Option String) (dbo : DbOutcome)
    (st : OrderStore) : HttpResponse × OrderStore :=
  if truthyStr id = false then
    ({ status := 400, error := some msgOrderIdRequired }, st)
  else if truthyStr orderStatus = false then
    ({ status := 400, error := some msgStatusRequired }, st)
  else
    match dbo with
    | .failure m =>
      ({ status := 500, error := some "Database error during order update",
         details := some m }, st)
    | .ok =>
      let upd := sqlUpdateStatus st.rows (id.getD "") (orderStatus.getD "")
      if upd.2 = 0 then
        ({ status := 404, error := some msgOrderNotFound }, { st with rows := upd.1 })
      else
        ({ status := 200, message := some msgUpdateOk,
           updatedStatus := some (orderStatus.getD "") }, { st with rows := upd.1 })

/-- Well-formed store: every row id is below the auto-increment counter. -/
def storeWf (st : OrderStore) : Prop := ∀ r ∈ st.rows, r.id < st.nextId

/- Helper lemmas -/

theorem not_le_zero_of_pos {t : Rat} (ht : 0 < t) : ¬ (t ≤ 0) := not_le.mpr ht

theorem length_ne_zero_of_ne_nil {l : List JsItem} (hl : l ≠ []) : ¬ (l.length = 0) := by
  simpa [List.length_eq_zero] using hl

/-- C3: validateCartData succeeds exactly when the cart is present with a total > 0
and a non-empty item array; on any invalid cart createOrder propagates the
validation error and performs zero gateway calls; validateCartData is a pure
function of the cart alone, so it has no side effects. -/
theorem C3_validateCartData_spec :
    (∀ cart : Option Cart,
      validateCartData cart = .ok () ↔
        ∃ c t l, cart = some c ∧ c.total = some t ∧ 0 < t ∧ c.items = some l ∧ l ≠ []) ∧
    (∀ (cart : Option Cart) (gw : GwOutcome) (m : String),
      validateCartData cart = .error m → createOrder cart gw = (.error m, 0)) := by
  constructor
  · intro cart
    constructor
    · intro h
      by_cases h1 : cartTotalInvalid cart = true
      · simp [validateCartData, h1] at h
      · by_cases h2 : cartItemsInvalid cart = true
        · simp [validateCartData, h1, h2] at h
        · match cart with
          | none => simp [cartTotalInvalid] at h1
          | some c =>
            match hc : c.total with
            | none => simp [cartTotalInvalid, hc] at h1
            | some t =>
              match hi : c.items with
              | none => simp [cartItemsInvalid, hi] at h2
              | some l =>
                refine ⟨c, t, l, rfl, hc, ?_, hi, ?_⟩
                · simp [cartTotalInvalid, hc] at h1
                  exact h1
                · simp [cartItemsInvalid, hi, List.length_eq_zero] at h2
                  exact h2
    · rintro ⟨c, t, l, rfl, hc, ht, hi, hl⟩
      simp [validateCartData, cartTotalInvalid, cartItemsInvalid, hc, hi,
        not_le_zero_of_pos ht, length_ne_zero_of_ne_nil hl]
  · intro cart gw m h
    simp [createOrder, h]

/-- C3 witness: the empty-cart input is rejected with the total-amount message and
no gateway call is made. -/
theorem C3_witness :
    createOrder none (GwOutcome.ok "b" 201) =
      (Except.error "Invalid cart: Total amount must be greater than zero", 0) :=
  C3_validateCartData_spec.2 none (GwOutcome.ok "b" 201) _ rfl

/-- C4: captureOrder with a falsy (absent or empty) order id fails with the
message Order ID is required and performs no gateway call. -/
theorem C4_captureOrder_guard (orderID : Option String) (gw : GwOutcome)
    (h : truthyStr orderID = false) :
    captureOrder orderID gw = (.error "Order ID is required", 0) := by
  simp [captureOrder, h]

/-- C4 witness: the empty-string id is falsy and is rejected without a gateway call. -/
theorem C4_witness :
    truthyStr (some "") = false ∧
      captureOrder (some "") (GwOutcome.ok "body" 201) =
        (Except.error "Order ID is required", 0) :=
  ⟨rfl, C4_captureOrder_guard (some "") (GwOutcome.ok "body" 201) rfl⟩

/-- C10: validateCartData never inspects item contents: any cart with a positive
total and a non-empty item array passes validation whatever the items hold, and
createOrder forwards exactly those items to request construction, whose outcome
then decides the call (a TypeError there also happens before any gateway call). -/
theorem C10_items_unchecked (t : Rat) (l : List JsItem) (ht : 0 < t) (hl : l ≠ []) :
    validateCartData (some { total := some t, items := some l }) = .ok () ∧
    (∀ (gw : GwOutcome) (m : String), buildCollect t l = .error m →
      createOrder (some { total := some t, items := some l }) gw = (.error m, 0)) ∧
    (∀ (gw : GwOutcome) (pu : PurchaseUnit), buildCollect t l = .ok pu →
      (createOrder (some { total := some t, items := some l }) gw).2 = 1) := by
  have hv : validateCartData (some { total := some t, items := some l }) = .ok () := by
    simp [validateCartData, cartTotalInvalid, cartItemsInvalid,
      not_le_zero_of_pos ht, length_ne_zero_of_ne_nil hl]
  refine ⟨hv, ?_, ?_⟩
  · intro gw m hb
    simp [createOrder, hv, hb]
  · intro gw pu hb
    cases gw <;> simp [createOrder, hv, hb]

/-- C10 witness: an item with no price and a negative quantity passes validation,
and the raw item reaches request construction where the TypeError fires with no
gateway call. -/
theorem C10_witness :
    (0 : Rat) < 5 ∧
    ([({ productName := none, quantity := some (-3), price := none } : JsItem)] ≠ []) ∧
    createOrder
        (some { total := some 5,
                items := some [{ productName := none, quantity := some (-3), price := none }] })
        (GwOutcome.ok "b" 201) =
      (Except.error "TypeError: cannot read toFixed of undefined", 0) :=
  ⟨by norm_num, by simp,
    (C10_items_unchecked 5 _ (by norm_num) (by simp)).2.1 (GwOutcome.ok "b" 201) _ rfl⟩

theorem digitChar_ne_dot (n : Nat) : digitChar n ≠ '.' := by
  have h : n % 10 < 10 := Nat.mod_lt _ (by omega)
  have key : ∀ m, m < 10 → Char.ofNat (48 + m) ≠ '.' := by decide
  exact key (n % 10) h

theorem natDigits_ne_dot (n : Nat) : ∀ c ∈ natDigits n, c ≠ '.' := by
  induction n using Nat.strong_induction_on with
  | _ n ih =>
    intro c hc
    rw [natDigits] at hc
    split at hc
    · simp at hc
      subst hc
      exact digitChar_ne_dot n
    · rcases List.mem_append.mp hc with h | h
      · exact ih (n / 10) (Nat.div_lt_self (by omega) (by omega)) c h
      · simp at h
        subst h
        exact digitChar_ne_dot n

theorem hasTwoDecimals_mk (sign ds : List Char) (a b : Nat)
    (hs : '.' ∉ sign) (hd : ∀ c ∈ ds, c ≠ '.') :
    hasTwoDecimals (String.mk (sign ++ ds ++ ['.', digitChar a, digitChar b])) := by
  refine ⟨sign ++ ds, digitChar a, digitChar b, ?_, ?_, digitChar_ne_dot a, digitChar_ne_dot b⟩
  · show sign ++ ds ++ _ = (sign ++ ds) ++ _
    rfl
  · intro h
    rcases List.mem_append.mp h with h | h
    · exact hs h
    · exact hd _ h rfl

theorem toFixed2_hasTwoDecimals (q : Rat) : hasTwoDecimals (toFixed2 q) := by
  unfold toFixed2
  apply hasTwoDecimals_mk
  · split <;> decide
  · exact natDigits_ne_dot _

theorem buildItems_ok (l : List JsItem) (h : ∀ it ∈ l, it.price.isSome) :
    buildItems l = .ok (l.map fun it =>
      { name := it.productName, quantity := it.quantity,
        unit_amount := { currency_code := "USD", value := toFixed2 (it.price.getD 0) } }) := by
  induction l with
  | nil => rfl
  | cons a l ih =>
    obtain ⟨p, hp⟩ := Option.isSome_iff_exists.mp (h a (by simp))
    have ih2 := ih (fun it hit => h it (by simp [hit]))
    simp [buildItems, buildItem, hp, ih2]

/-- C9: for a valid cart whose items each carry a price, the request built by
createOrder has USD currency, the two-decimal formatted total, and per item the
name, the quantity, and the two-decimal formatted unit price in USD; createOrder
then performs exactly one gateway call whatever the gateway outcome. -/
theorem C9_request_contents (t : Rat) (l : List JsItem) (ht : 0 < t) (hl : l ≠ [])
    (hall : ∀ it ∈ l, it.price.isSome) :
    ∃ pu, buildCollect t l = .ok pu ∧
      pu.currencyCode = "USD" ∧ pu.value = toFixed2 t ∧ hasTwoDecimals pu.value ∧
      pu.items = l.map (fun it =>
        { name := it.productName, quantity := it.quantity,
          unit_amount := { currency_code := "USD", value := toFixed2 (it.price.getD 0) } }) ∧
      (∀ ri ∈ pu.items, ri.unit_amount.currency_code = "USD" ∧
        hasTwoDecimals ri.unit_amount.value) ∧
      (∀ gw, (createOrder (some { total := some t, items := some l }) gw).2 = 1) := by
  have hb := buildItems_ok l hall
  refine ⟨{ currencyCode := "USD", value := toFixed2 t,
            items := l.map fun it =>
              { name := it.productName, quantity := it.quantity,
                unit_amount := { currency_code := "USD",
                                 value := toFixed2 (it.price.getD 0) } } },
    ?_, rfl, rfl, toFixed2_hasTwoDecimals t, rfl, ?_, ?_⟩
  · simp [buildCollect, hb]
  · intro ri hri
    simp only [List.mem_map] at hri
    obtain ⟨it, hit, rfl⟩ := hri
    exact ⟨rfl, toFixed2_hasTwoDecimals _⟩
  · intro gw
    have hv : validateCartData (some { total := some t, items := some l }) = .ok () := by
      simp [validateCartData, cartTotalInvalid, cartItemsInvalid,
        not_le_zero_of_pos ht, length_ne_zero_of_ne_nil hl]
    cases gw <;> simp [createOrder, hv, buildCollect, hb]

/-- A concrete well-formed cart item used by the witnesses. -/
def itemA : JsItem := { productName := some "A", quantity := some 2, price := some 3 }

/-- C9 witness: the one-item cart with total 6 builds the expected request. -/
theorem C9_witness :
    (0 : Rat) < 6 ∧ ([itemA] ≠ []) ∧ (∀ it ∈ [itemA], it.price.isSome) ∧
    ∃ pu, buildCollect 6 [itemA] = .ok pu ∧
      pu.currencyCode = "USD" ∧ pu.value = toFixed2 6 ∧ hasTwoDecimals pu.value ∧
      pu.items = [itemA].map (fun it =>
        { name := it.productName, quantity := it.quantity,
          unit_amount := { currency_code := "USD", value := toFixed2 (it.price.getD 0) } }) ∧
      (∀ ri ∈ pu.items, ri.unit_amount.currency_code = "USD" ∧
        hasTwoDecimals ri.unit_amount.value) ∧
      (∀ gw, (createOrder (some { total := some 6, items := some [itemA] }) gw).2 = 1) :=
  ⟨by norm_num, by simp, by decide,
    C9_request_contents 6 [itemA] (by norm_num) (by simp) (by decide)⟩

theorem placeOrderInvalid_false (req : PlaceOrderReq) (hv : placeOrderInvalid req = false) :
    ∃ u items ta pm, req.user = some u ∧ req.cartItems = some items ∧
      req.totalAmount = some ta ∧ ta ≠ 0 ∧ req.paymentMethod = some pm ∧ pm ≠ "" := by
  rcases req with ⟨u, ci, ta, pm, os⟩
  cases u <;> cases ci <;> cases ta <;> cases pm <;>
    simp_all [placeOrderInvalid, truthyNum, truthyStr]

/-- A concrete user object used by the witnesses. -/
def user0 : JsUser :=
  { email_customer := some "a@b.c", user_Name := some "Al", ville := some "Douala",
    quartier := some "Akwa", phoneNumber := some "650000000" }

/-- A concrete valid placeOrder request used by the witnesses. -/
def req0 : PlaceOrderReq :=
  { user := some user0, cartItems := some [itemA], totalAmount := some 6,
    paymentMethod := some "cash", order_status := none }

/-- The empty store with auto-increment counter 1. -/
def st0 : OrderStore := { rows := [], nextId := 1 }

/-- C6: notification is attempted only after a successful insert (any validation
or database failure performs zero notification attempts and leaves the store as
it was), and a notification failure performs no rollback: the resulting store is
exactly the store of the notification-success branch. -/
theorem C6_notify_after_persist_no_rollback :
    (∀ (req : PlaceOrderReq) (dbo : DbOutcome) (no : NotifyOutcome) (st : OrderStore),
      1 ≤ (placeOrder req dbo no st).2.2 →
        dbo = DbOutcome.ok ∧
        (placeOrder req dbo no st).2.1.rows.length = st.rows.length + 1) ∧
    (∀ (req : PlaceOrderReq) (m : String) (st : OrderStore),
      (placeOrder req DbOutcome.ok (NotifyOutcome.failure m) st).2.1 =
        (placeOrder req DbOutcome.ok NotifyOutcome.ok st).2.1) := by
  constructor
  · intro req dbo no st h
    by_cases hv : placeOrderInvalid req = true
    · simp [placeOrder, hv] at h
    · rw [Bool.not_eq_true] at hv
      match hu : req.user, hc : req.cartItems with
      | none, _ => simp [placeOrder, hv, hu] at h
      | some u, none => simp [placeOrder, hv, hu, hc] at h
      | some u, some items =>
        cases dbo with
        | failure m => simp [placeOrder, hv, hu, hc] at h
        | ok =>
          refine ⟨rfl, ?_⟩
          cases no <;> simp [placeOrder, hv, hu, hc]
  · intro req m st
    by_cases hv : placeOrderInvalid req = true
    · simp [placeOrder, hv]
    · rw [Bool.not_eq_true] at hv
      match hu : req.user, hc : req.cartItems with
      | none, _ => simp [placeOrder, hv, hu]
      | some u, none => simp [placeOrder, hv, hu, hc]
      | some u, some items => simp [placeOrder, hv, hu, hc]

/-- C6 witness: on the concrete valid request the notification is attempted once
and the store has grown by exactly the inserted row. -/
theorem C6_witness :
    1 ≤ (placeOrder req0 DbOutcome.ok NotifyOutcome.ok st0).2.2 ∧
    (DbOutcome.ok = DbOutcome.ok ∧
      (placeOrder req0 DbOutcome.ok NotifyOutcome.ok st0).2.1.rows.length =
        st0.rows.length + 1) :=
  ⟨by decide,
    C6_notify_after_persist_no_rollback.1 req0 DbOutcome.ok NotifyOutcome.ok st0 (by decide)⟩

/-- C1 counterexample: on a concrete valid request whose notification fails after
a successful insert, placeOrder answers 500, not 201, and the response carries
no order id even though one row was persisted. -/
theorem C1_counterexample :
    (placeOrder req0 DbOutcome.ok (NotifyOutcome.failure "smtp down") st0).1.status = 500 ∧
    (placeOrder req0 DbOutcome.ok (NotifyOutcome.failure "smtp down") st0).1.orderId = none ∧
    (placeOrder req0 DbOutcome.ok (NotifyOutcome.failure "smtp down") st0).2.1.rows.length = 1 := by
  decide

/-- C1 amended: when the notification fails after successful persistence,
placeOrder responds HTTP 500 whose error says the order was created but the
notification failed, with the notification error message as details; the
response does not carry the order id, and the inserted row is kept. -/
theorem C1_amended_notify_failure (req : PlaceOrderReq) (m : String) (st : OrderStore)
    (hv : placeOrderInvalid req = false) :
    (placeOrder req DbOutcome.ok (NotifyOutcome.failure m) st).1.status = 500 ∧
    (placeOrder req DbOutcome.ok (NotifyOutcome.failure m) st).1.error = some msgNotifFail ∧
    (placeOrder req DbOutcome.ok (NotifyOutcome.failure m) st).1.details = some m ∧
    (placeOrder req DbOutcome.ok (NotifyOutcome.failure m) st).1.orderId = none ∧
    (placeOrder req DbOutcome.ok (NotifyOutcome.failure m) st).2.1.rows.length =
      st.rows.length + 1 := by
  obtain ⟨u, items, ta, pm, hu, hc, hta, hta0, hpm, hpm0⟩ := placeOrderInvalid_false req hv
  simp [placeOrder, hv, hu, hc]

/-- C1 amended witness: the concrete valid request with a failing notification. -/
theorem C1_amended_witness :
    placeOrderInvalid req0 = false ∧
    ((placeOrder req0 DbOutcome.ok (NotifyOutcome.failure "x") st0).1.status = 500 ∧
     (placeOrder req0 DbOutcome.ok (NotifyOutcome.failure "x") st0).1.error =
       some msgNotifFail ∧
     (placeOrder req0 DbOutcome.ok (NotifyOutcome.failure "x") st0).1.details = some "x" ∧
     (placeOrder req0 DbOutcome.ok (NotifyOutcome.failure "x") st0).1.orderId = none ∧
     (placeOrder req0 DbOutcome.ok (NotifyOutcome.failure "x") st0).2.1.rows.length =
       st0.rows.length + 1) :=
  ⟨by decide, C1_amended_notify_failure req0 "x" st0 (by decide)⟩

/-- A request with an empty item array and a negative total: both pass the guard. -/
def reqBad : PlaceOrderReq :=
  { user := some user0, cartItems := some [], totalAmount := some (-5),
    paymentMethod := some "cash", order_status := none }

/-- C2 counterexample: the request with an empty item array and totalAmount -5
passes the placeOrder guard, is answered 201, and the store then holds an order
whose item snapshot is empty and whose totalAmount is not positive. -/
theorem C2_counterexample :
    (placeOrder reqBad DbOutcome.ok NotifyOutcome.ok st0).1.status = 201 ∧
    ((placeOrder reqBad DbOutcome.ok NotifyOutcome.ok st0).2.1.rows.any
      (fun r => r.cartItems.isEmpty && decide (r.totalAmount ≤ 0))) = true := by
  decide

/-- C2 amended: the placeOrder guard rejects, with a 400 and before any
persistence or notification, every request with an absent user, an absent or
non-array cartItems, a falsy (absent or zero) totalAmount, or a falsy
paymentMethod; it does not reject an empty item array or a negative total,
which are persisted unchanged. -/
theorem C2_amended_guard (req : PlaceOrderReq) (dbo : DbOutcome) (no : NotifyOutcome)
    (st : OrderStore) (h : placeOrderInvalid req = true) :
    (placeOrder req dbo no st).1.status = 400 ∧
    (placeOrder req dbo no st).2.1 = st ∧
    (placeOrder req dbo no st).2.2 = 0 := by
  simp [placeOrder, h]

/-- A request that omits totalAmount and therefore fails the guard. -/
def reqNoTotal : PlaceOrderReq :=
  { user := some user0, cartItems := some [itemA], totalAmount := none,
    paymentMethod := some "cash", order_status := none }

/-- C2 amended witness: a request with an absent totalAmount is answered 400 and
nothing is stored or notified. -/
theorem C2_amended_witness :
    placeOrderInvalid reqNoTotal = true ∧
    ((placeOrder reqNoTotal DbOutcome.ok NotifyOutcome.ok st0).1.status = 400 ∧
     (placeOrder reqNoTotal DbOutcome.ok NotifyOutcome.ok st0).2.1 = st0 ∧
     (placeOrder reqNoTotal DbOutcome.ok NotifyOutcome.ok st0).2.2 = 0) :=
  ⟨by decide, C2_amended_guard reqNoTotal DbOutcome.ok NotifyOutcome.ok st0 (by decide)⟩

/-- C5: the gateway flow never writes the store — postApiOrders returns it
unchanged for every request and outcome — and on a valid cart a gateway
ApiError or transport failure is terminal: a 500 response with the wrapped
gateway error message as details. -/
theorem C5_flowA_no_persist :
    (∀ (cart : Option Cart) (gw : GwOutcome) (st : OrderStore),
      (postApiOrders cart gw st).2.1 = st) ∧
    (∀ (t : Rat) (l : List JsItem) (pu : PurchaseUnit) (m : String) (st : OrderStore),
      0 < t → l ≠ [] → buildCollect t l = .ok pu →
      ((postApiOrders (some { total := some t, items := some l }) (GwOutcome.apiErr m) st).1 =
        { status := 500, error := some "Failed to create order",
          details := some ("PayPal API Error: " ++ m) } ∧
       (postApiOrders (some { total := some t, items := some l }) (GwOutcome.transpErr m) st).1 =
        { status := 500, error := some "Failed to create order", details := some m })) := by
  constructor
  · intro cart gw st
    match cart with
    | none => rfl
    | some c =>
      simp only [postApiOrders]
      rcases hco : createOrder (some c) gw with ⟨e, n⟩
      cases e <;> simp [hco]
  · intro t l pu m st ht hl hb
    have hv : validateCartData (some { total := some t, items := some l }) = .ok () := by
      simp [validateCartData, cartTotalInvalid, cartItemsInvalid,
        not_le_zero_of_pos ht, length_ne_zero_of_ne_nil hl]
    constructor <;> simp [postApiOrders, createOrder, hv, hb]

/-- C5 witness: with the concrete one-item cart and a failing gateway, the store
is unchanged and the response is the 500 gateway-error report. -/
theorem C5_witness :
    (0 : Rat) < 6 ∧ ([itemA] ≠ []) ∧
    buildCollect 6 [itemA] =
      .ok { currencyCode := "USD", value := toFixed2 6,
            items := [{ name := some "A", quantity := some 2,
                        unit_amount := { currency_code := "USD", value := toFixed2 3 } }] } ∧
    ((postApiOrders (some { total := some 6, items := some [itemA] })
        (GwOutcome.apiErr "declined") st0).1 =
      { status := 500, error := some "Failed to create order",
        details := some ("PayPal API Error: " ++ "declined") } ∧
     (postApiOrders (some { total := some 6, items := some [itemA] })
        (GwOutcome.transpErr "timeout") st0).1 =
      { status := 500, error := some "Failed to create order", details := some "timeout" }) := by
  refine ⟨by norm_num, by simp, rfl, ?_⟩
  exact ⟨(C5_flowA_no_persist.2 6 [itemA] _ "declined" st0 (by norm_num) (by simp) rfl).1,
         (C5_flowA_no_persist.2 6 [itemA] _ "timeout" st0 (by norm_num) (by simp) rfl).2⟩

/-- C7: with a truthy id and status and a working database, updateOrder answers
404 and leaves the store exactly as it was when no row carries the id, and when
some row carries it, it answers 200 echoing the new status and unconditionally
overwrites order_status on every matching row, whatever status it held before. -/
theorem C7_updateOrder_spec (idStr s : String) (st : OrderStore)
    (hid : idStr ≠ "") (hs : s ≠ "") :
    ((∀ r ∈ st.rows, toString r.id ≠ idStr) →
      updateOrder (some idStr) (some s) DbOutcome.ok st =
        ({ status := 404, error := some msgOrderNotFound }, st)) ∧
    ((∃ r ∈ st.rows, toString r.id = idStr) →
      (updateOrder (some idStr) (some s) DbOutcome.ok st).1.status = 200 ∧
      (updateOrder (some idStr) (some s) DbOutcome.ok st).1.updatedStatus = some s ∧
      (updateOrder (some idStr) (some s) DbOutcome.ok st).2.rows =
        st.rows.map (fun r => if toString r.id == idStr then { r with order_status := s }
                              else r)) := by
  have htid : truthyStr (some idStr) = true := by simp [truthyStr, hid]
  have hts : truthyStr (some s) = true := by simp [truthyStr, hs]
  constructor
  · intro hnone
    have hcount : st.rows.countP (fun r => toString r.id == idStr) = 0 := by
      rw [List.countP_eq_zero]
      intro r hr
      simpa using hnone r hr
    have hmap : st.rows.map
        (fun r => if toString r.id = idStr then { r with order_status := s } else r) =
        st.rows := by
      conv_rhs => rw [← List.map_id st.rows]
      apply List.map_congr_left
      intro r hr
      simp [hnone r hr]
    simp only [updateOrder, htid, hts, sqlUpdateStatus, hcount, beq_iff_eq]
    simp [hmap]
    exact hnone
  · intro hex
    have hpos : 0 < st.rows.countP (fun r => toString r.id == idStr) := by
      rw [List.countP_pos_iff]
      obtain ⟨r, hr, he⟩ := hex
      exact ⟨r, hr, by simpa using he⟩
    have hne : ¬ (st.rows.countP (fun r => toString r.id == idStr) = 0) := by omega
    simp [updateOrder, htid, hts, sqlUpdateStatus, hne]

/-- A concrete persisted row whose status is already captured. -/
def row1 : OrderRecord :=
  { id := 1, email := some "a@b.c", username := some "Al", ville := some "Douala",
    quartier := some "Akwa", phoneNumber := some "650000000", paymentMethod := some "cash",
    totalAmount := 6, order_status := "captured", cartItems := [itemA] }

/-- A store holding that one row. -/
def st1 : OrderStore := { rows := [row1], nextId := 2 }

/-- C7 witness: updating the captured row back to pending succeeds and overwrites
the status, showing there is no forward-only enforcement. -/
theorem C7_witness :
    ("1" : String) ≠ "" ∧ ("pending" : String) ≠ "" ∧
    ((updateOrder (some "1") (some "pending") DbOutcome.ok st1).1.status = 200 ∧
     (updateOrder (some "1") (some "pending") DbOutcome.ok st1).1.updatedStatus =
       some "pending" ∧
     (updateOrder (some "1") (some "pending") DbOutcome.ok st1).2.rows =
       st1.rows.map (fun r => if toString r.id == "1" then { r with order_status := "pending" }
                              else r)) :=
  ⟨by decide, by decide,
    (C7_updateOrder_spec "1" "pending" st1 (by decide) (by decide)).2 (by decide)⟩

/-- C8: whenever placeOrder answers 201, the response carries the fresh insert
id, exactly one row of the resulting store has that id, the store grew by
exactly one row, and when the caller supplied no order_status the row at that id
has order_status pending. -/
theorem C8_placeOrder_success (req : PlaceOrderReq) (dbo : DbOutcome) (no : NotifyOutcome)
    (st : OrderStore) (hwf : storeWf st)
    (h201 : (placeOrder req dbo no st).1.status = 201) :
    (placeOrder req dbo no st).1.orderId = some st.nextId ∧
    ((placeOrder req dbo no st).2.1.rows.countP (fun r => r.id == st.nextId)) = 1 ∧
    (placeOrder req dbo no st).2.1.rows.length = st.rows.length + 1 ∧
    (req.order_status = none →
      ∀ r ∈ (placeOrder req dbo no st).2.1.rows, r.id = st.nextId →
        r.order_status = "pending") := by
  by_cases hv : placeOrderInvalid req = true
  · simp [placeOrder, hv] at h201
  · rw [Bool.not_eq_true] at hv
    match hu : req.user, hc : req.cartItems with
    | none, _ => simp [placeOrder, hv, hu] at h201
    | some u, none => simp [placeOrder, hv, hu, hc] at h201
    | some u, some items =>
      cases dbo with
      | failure m => simp [placeOrder, hv, hu, hc] at h201
      | ok =>
        cases no with
        | failure m => simp [placeOrder, hv, hu, hc] at h201
        | ok =>
          have hcount0 : st.rows.countP (fun r => r.id == st.nextId) = 0 := by
            rw [List.countP_eq_zero]
            intro r hr
            have := hwf r hr
            simp only [beq_iff_eq]
            omega
          refine ⟨?_, ?_, ?_, ?_⟩
          · simp [placeOrder, hv, hu, hc]
          · simp [placeOrder, hv, hu, hc, List.countP_append, hcount0]
          · simp [placeOrder, hv, hu, hc]
          · intro hos r hr hid
            simp [placeOrder, hv, hu, hc] at hr
            rcases hr with hr | hr
            · have := hwf r hr
              omega
            · subst hr
              simp [hos, truthyStr]

/-- C8 witness: the concrete valid request without order_status inserts one row
with the returned id and status pending. -/
theorem C8_witness :
    storeWf st0 ∧ (placeOrder req0 DbOutcome.ok NotifyOutcome.ok st0).1.status = 201 ∧
    ((placeOrder req0 DbOutcome.ok NotifyOutcome.ok st0).1.orderId = some st0.nextId ∧
     ((placeOrder req0 DbOutcome.ok NotifyOutcome.ok st0).2.1.rows.countP
        (fun r => r.id == st0.nextId)) = 1 ∧
     (placeOrder req0 DbOutcome.ok NotifyOutcome.ok st0).2.1.rows.length =
       st0.rows.length + 1 ∧
     (req0.order_status = none →
       ∀ r ∈ (placeOrder req0 DbOutcome.ok NotifyOutcome.ok st0).2.1.rows,
         r.id = st0.nextId → r.order_status = "pending")) :=
  ⟨by intro r hr; simp [st0] at hr, by decide,
    C8_placeOrder_success req0 DbOutcome.ok NotifyOutcome.ok st0
      (by intro r hr; simp [st0] at hr) (by decide)⟩
